import Mathlib

/-!
Verification of the phenyl request-processing core
(`src/modules/standards/src/standard-user-definition.ts`, which contains the
`StandardUserDefinition` strategy and the `PhenylCore` pipeline).

Shallow embedding conventions:
  * A JavaScript promise that may reject is modelled as `Except JsErr α`:
    `Except.error e` is a rejection carrying the error message `e`,
    `Except.ok v` a resolution with value `v`.
  * External collaborators (session client, entity client, the six hooks)
    are fields of the `PhenylCore` structure, each an arbitrary Lean
    function returning `Except JsErr _`.
  * Every pipeline function additionally returns the list of collaborator
    invocations it performed, in order (`List Event`), so that claims of
    the form "hook X is never invoked" are equalities on that trace.
  * Opaque payloads (query/command parameters, backend result payloads)
    are modelled as `Nat` tokens; entity records keep an `id` and an
    opaque field list.
-/

namespace Phenyl

/-- A JavaScript exception / promise rejection, identified by its message. -/
abbrev JsErr := String

/-- A stored entity: an identifier plus opaque further fields. -/
structure Entity where
  id : String
  fields : List (String × String)
deriving DecidableEq, Repr

/-- A persisted session record. -/
structure SessionRec where
  id : String
  expiredAt : String
  entityName : String
  userId : String
deriving DecidableEq, Repr

/-- The unpersisted pre-session descriptor produced by authentication. -/
structure PreSession where
  expiredAt : String
  entityName : String
  userId : String
deriving DecidableEq, Repr

/-- A result object produced by an entity-client / custom-handler call:
the `ok` flag checked by the dispatcher, plus an opaque payload. -/
structure ClientResult where
  ok : Bool
  payload : Nat
deriving DecidableEq, Repr

/-- An error object produced by `createErrorResult` / `createServerError`:
a message and a result type (the error kind string). -/
structure ErrorResult where
  message : String
  resultType : String
deriving DecidableEq, Repr

/-- Modelled from the spec: `createErrorResult(e)` with no explicit kind
(from `phenyl-utils`, outside `src/`) produces "a generic/untyped error";
the generic kind is represented by this distinguished string. -/
def genericErrorKind : String := "InternalServer"

/-- `createErrorResult(e)` with a single argument: a generic error result
carrying the exception's message. -/
def createErrorResult (e : JsErr) : ErrorResult :=
  { message := e, resultType := genericErrorKind }

/-- A login command: entity name plus a credentials object, modelled as a
total lookup from property name to value. -/
structure LoginCommand where
  entityName : String
  credentials : String → String

/-- A logout command. -/
structure LogoutCommand where
  sessionId : String
deriving DecidableEq, Repr

/-- `RequestData`: the command envelope, one optional field per variant,
in the source's declaration order. -/
structure RequestData where
  find : Option Nat := none
  findOne : Option Nat := none
  get : Option Nat := none
  getByIds : Option Nat := none
  insert : Option Nat := none
  insertAndGet : Option Nat := none
  insertAndFetch : Option Nat := none
  update : Option Nat := none
  updateAndGet : Option Nat := none
  updateAndFetch : Option Nat := none
  delete : Option Nat := none
  runCustomQuery : Option Nat := none
  runCustomCommand : Option Nat := none
  login : Option LoginCommand := none
  logout : Option LogoutCommand := none

/-- The eleven entity-client (Operation Backend) method names. -/
inductive EMethod
  | find | findOne | get | getByIds
  | insert | insertAndGet | insertAndFetch
  | update | updateAndGet | updateAndFetch
  | delete
deriving DecidableEq, Repr

/-- One collaborator invocation, recorded in the pipeline's trace. -/
inductive Event
  | sessionGet
  | assertShape
  | acl
  | validation
  | wrapper
  | entity (m : EMethod)
  | customQuery
  | customCommand
  | auth
  | sessionCreate
  | sessionDelete
deriving DecidableEq, Repr

/-- The possible payloads under the top-level `error` key of a response:
either a backend result with `ok` false passed through verbatim, or an
error object built by `createErrorResult`. -/
inductive RespErr
  | ofResult (r : ClientResult)
  | ofError (e : ErrorResult)
deriving DecidableEq, Repr

/-- A successful login result `{ok: 1, user, session}`, or the error
result returned when the authentication handler fails. -/
inductive LoginOutcome
  | ok (user : Entity) (session : SessionRec)
  | err (e : ErrorResult)
deriving DecidableEq, Repr

/-- A successful logout result `{ok: 1}`, or an error result. -/
inductive LogoutOutcome
  | ok
  | err (e : ErrorResult)
deriving DecidableEq, Repr

/-- Truthiness of the `ok` field of a login/logout result. -/
def LoginOutcome.isOk : LoginOutcome → Bool
  | .ok _ _ => true
  | .err _ => false

/-- Truthiness of the `ok` field of a logout result. -/
def LogoutOutcome.isOk : LogoutOutcome → Bool
  | .ok => true
  | .err _ => false

/-- `ResponseData`: the result envelope, one constructor per top-level
key the source can produce. -/
inductive ResponseData
  | find (r : ClientResult)
  | findOne (r : ClientResult)
  | get (r : ClientResult)
  | getByIds (r : ClientResult)
  | insert (r : ClientResult)
  | insertAndGet (r : ClientResult)
  | insertAndFetch (r : ClientResult)
  | update (r : ClientResult)
  | updateAndGet (r : ClientResult)
  | updateAndFetch (r : ClientResult)
  | delete (r : ClientResult)
  | runCustomQuery (r : ClientResult)
  | runCustomCommand (r : ClientResult)
  | login (user : Entity) (session : SessionRec)
  | logout
  | error (e : RespErr)
deriving DecidableEq, Repr

/-- The authentication handler's resolved value: `{preSession, user,
versionId}` on success (with `ok` truthy), or `{ok: 0, error, resultType}`
on failure. -/
inductive AuthOutcome
  | ok (preSession : PreSession) (user : Entity) (versionId : String)
  | err (message : String) (resultType : String)
deriving Repr

/-- Does an `Except` value hold a resolution (as opposed to a rejection)? -/
def exceptIsOk : Except JsErr α → Bool
  | .ok _ => true
  | .error _ => false

/-- `PhenylCore` with its client pool and hooks: each collaborator of the
pipeline is a field (already closed over the client pool it receives in
the source). The execution wrapper receives the request, the session and
the bound dispatcher continuation, and yields a (possibly rejecting)
response together with the trace of calls it performed. -/
structure PhenylCore where
  sessionGet : Option String → Except JsErr (Option SessionRec)
  sessionCreate : PreSession → Except JsErr SessionRec
  sessionDelete : String → Except JsErr Bool
  assertValidRequestData : RequestData → Except JsErr Unit
  aclHandler : RequestData → Option SessionRec → Except JsErr Bool
  validationHandler : RequestData → Option SessionRec → Except JsErr Bool
  customQueryHandler : Nat → Option SessionRec → Except JsErr ClientResult
  customCommandHandler : Nat → Option SessionRec → Except JsErr ClientResult
  authenticationHandler : LoginCommand → Option SessionRec → Except JsErr AuthOutcome
  executionWrapper : RequestData → Option SessionRec →
    (RequestData → Option SessionRec → Except JsErr ResponseData × List Event) →
    Except JsErr ResponseData × List Event
  entityFind : Nat → Except JsErr ClientResult
  entityFindOne : Nat → Except JsErr ClientResult
  entityGet : Nat → Except JsErr ClientResult
  entityGetByIds : Nat → Except JsErr ClientResult
  entityInsert : Nat → Except JsErr ClientResult
  entityInsertAndGet : Nat → Except JsErr ClientResult
  entityInsertAndFetch : Nat → Except JsErr ClientResult
  entityUpdate : Nat → Except JsErr ClientResult
  entityUpdateAndGet : Nat → Except JsErr ClientResult
  entityUpdateAndFetch : Nat → Except JsErr ClientResult
  entityDelete : Nat → Except JsErr ClientResult

/-- Select the entity-client method named `m`. -/
def entityCall (c : PhenylCore) : EMethod → Nat → Except JsErr ClientResult
  | .find => c.entityFind
  | .findOne => c.entityFindOne
  | .get => c.entityGet
  | .getByIds => c.entityGetByIds
  | .insert => c.entityInsert
  | .insertAndGet => c.entityInsertAndGet
  | .insertAndFetch => c.entityInsertAndFetch
  | .update => c.entityUpdate
  | .updateAndGet => c.entityUpdateAndGet
  | .updateAndFetch => c.entityUpdateAndFetch
  | .delete => c.entityDelete

/-- Wrap an entity-client success result under the same-named top-level
key of the response envelope. -/
def wrapKey : EMethod → ClientResult → ResponseData
  | .find => ResponseData.find
  | .findOne => ResponseData.findOne
  | .get => ResponseData.get
  | .getByIds => ResponseData.getByIds
  | .insert => ResponseData.insert
  | .insertAndGet => ResponseData.insertAndGet
  | .insertAndFetch => ResponseData.insertAndFetch
  | .update => ResponseData.update
  | .updateAndGet => ResponseData.updateAndGet
  | .updateAndFetch => ResponseData.updateAndFetch
  | .delete => ResponseData.delete

/-- One dispatcher branch for an entity-client method `m`:
`const result = await entityClient.m(params);
 return result.ok ? { m: result } : { error: result }`.
A rejection of the client call propagates (the dispatcher has no catch). -/
def stepEntity (c : PhenylCore) (m : EMethod) (p : Nat) :
    Except JsErr ResponseData × List Event :=
  match entityCall c m p with
  | .ok r =>
      (.ok (if r.ok then wrapKey m r else .error (.ofResult r)), [.entity m])
  | .error e => (.error e, [.entity m])

/-- The `runCustomQuery` dispatcher branch. -/
def stepCustomQuery (c : PhenylCore) (p : Nat) (s : Option SessionRec) :
    Except JsErr ResponseData × List Event :=
  match c.customQueryHandler p s with
  | .ok r =>
      (.ok (if r.ok then .runCustomQuery r else .error (.ofResult r)), [.customQuery])
  | .error e => (.error e, [.customQuery])

/-- The `runCustomCommand` dispatcher branch. -/
def stepCustomCommand (c : PhenylCore) (p : Nat) (s : Option SessionRec) :
    Except JsErr ResponseData × List Event :=
  match c.customCommandHandler p s with
  | .ok r =>
      (.ok (if r.ok then .runCustomCommand r else .error (.ofResult r)), [.customCommand])
  | .error e => (.error e, [.customCommand])

/-- `PhenylCore.login`: runs the authentication handler; on a failed
result returns `createErrorResult(result.error, result.resultType)`;
on success creates a session from the pre-session and returns
`{ok: 1, user, session}`; any exception (handler rejection or session
creation rejection) is caught and becomes a generic error result. -/
def login (c : PhenylCore) (cmd : LoginCommand) (s : Option SessionRec) :
    LoginOutcome × List Event :=
  match c.authenticationHandler cmd s with
  | .error e => (.err (createErrorResult e), [.auth])
  | .ok (.err msg kind) => (.err { message := msg, resultType := kind }, [.auth])
  | .ok (.ok pre user _) =>
      match c.sessionCreate pre with
      | .ok ns => (.ok user ns, [.auth, .sessionCreate])
      | .error e => (.err (createErrorResult e), [.auth, .sessionCreate])

/-- `PhenylCore.logout`: deletes the command's session id from the
session client; a falsy delete result means the id was unknown and yields
`BadRequest "sessionId not found"`; a truthy result yields `{ok: 1}`;
an exception from the store is caught and becomes a generic error
result. -/
def logout (c : PhenylCore) (cmd : LogoutCommand) (_s : Option SessionRec) :
    LogoutOutcome × List Event :=
  match c.sessionDelete cmd.sessionId with
  | .ok true => (.ok, [.sessionDelete])
  | .ok false =>
      (.err { message := "sessionId not found", resultType := "BadRequest" }, [.sessionDelete])
  | .error e => (.err (createErrorResult e), [.sessionDelete])

/-- The `login` dispatcher branch:
`result.ok ? { login: result } : { error: result }`. -/
def stepLogin (c : PhenylCore) (cmd : LoginCommand) (s : Option SessionRec) :
    Except JsErr ResponseData × List Event :=
  match login c cmd s with
  | (.ok u ns, t) => (.ok (.login u ns), t)
  | (.err e, t) => (.ok (.error (.ofError e)), t)

/-- The `logout` dispatcher branch:
`result.ok ? { logout: result } : { error: result }`. -/
def stepLogout (c : PhenylCore) (cmd : LogoutCommand) (s : Option SessionRec) :
    Except JsErr ResponseData × List Event :=
  match logout c cmd s with
  | (.ok, t) => (.ok .logout, t)
  | (.err e, t) => (.ok (.error (.ofError e)), t)

/-- `PhenylCore.execute`: the dispatcher. Checks the envelope's variants
in the source's fixed order, handles the first populated one, and falls
through to `{error: NotFound("Invalid method name.")}` when none is
populated. -/
def execute (c : PhenylCore) (req : RequestData) (s : Option SessionRec) :
    Except JsErr ResponseData × List Event :=
  match req.find with
  | some p => stepEntity c .find p
  | none =>
  match req.findOne with
  | some p => stepEntity c .findOne p
  | none =>
  match req.get with
  | some p => stepEntity c .get p
  | none =>
  match req.getByIds with
  | some p => stepEntity c .getByIds p
  | none =>
  match req.insert with
  | some p => stepEntity c .insert p
  | none =>
  match req.insertAndGet with
  | some p => stepEntity c .insertAndGet p
  | none =>
  match req.insertAndFetch with
  | some p => stepEntity c .insertAndFetch p
  | none =>
  match req.update with
  | some p => stepEntity c .update p
  | none =>
  match req.updateAndGet with
  | some p => stepEntity c .updateAndGet p
  | none =>
  match req.updateAndFetch with
  | some p => stepEntity c .updateAndFetch p
  | none =>
  match req.delete with
  | some p => stepEntity c .delete p
  | none =>
  match req.runCustomQuery with
  | some p => stepCustomQuery c p s
  | none =>
  match req.runCustomCommand with
  | some p => stepCustomCommand c p s
  | none =>
  match req.login with
  | some cmd => stepLogin c cmd s
  | none =>
  match req.logout with
  | some cmd => stepLogout c cmd s
  | none =>
    (.ok (.error (.ofError { message := "Invalid method name.", resultType := "NotFound" })), [])

/-- `PhenylCore.run`: the pipeline entry point. Mirrors the source
control flow exactly:
  * `sessionClient.get(sessionId)` is awaited BEFORE the try block, so
    its rejection escapes `run`;
  * inside the try: shape assertion, ACL hook, validation hook — a throw
    from any of these is caught and converted to a generic error result,
    and a false ACL / validation verdict short-circuits with the
    corresponding typed error;
  * the execution wrapper's promise is returned from inside the try
    WITHOUT `await`, so a later rejection of that promise is not caught
    and escapes `run`. -/
def run (c : PhenylCore) (req : RequestData) (sid : Option String) :
    Except JsErr ResponseData × List Event :=
  match c.sessionGet sid with
  | .error e => (.error e, [.sessionGet])
  | .ok session =>
    match c.assertValidRequestData req with
    | .error e =>
        (.ok (.error (.ofError (createErrorResult e))), [.sessionGet, .assertShape])
    | .ok _ =>
      match c.aclHandler req session with
      | .error e =>
          (.ok (.error (.ofError (createErrorResult e))), [.sessionGet, .assertShape, .acl])
      | .ok false =>
          (.ok (.error (.ofError { message := "Authorization Required.", resultType := "Unauthorized" })),
           [.sessionGet, .assertShape, .acl])
      | .ok true =>
        match c.validationHandler req session with
        | .error e =>
            (.ok (.error (.ofError (createErrorResult e))),
             [.sessionGet, .assertShape, .acl, .validation])
        | .ok false =>
            (.ok (.error (.ofError { message := "Params are not valid.", resultType := "BadRequest" })),
             [.sessionGet, .assertShape, .acl, .validation])
        | .ok true =>
            let (r, t) := c.executionWrapper req session (fun rq ss => execute c rq ss)
            (r, [.sessionGet, .assertShape, .acl, .validation, .wrapper] ++ t)

/-- A populated command-envelope variant together with its payload. -/
inductive Variant
  | entity (m : EMethod) (p : Nat)
  | customQuery (p : Nat)
  | customCommand (p : Nat)
  | login (cmd : LoginCommand)
  | logout (cmd : LogoutCommand)

/-- Modelled from the spec's dispatch description: the first populated
variant of the envelope in the fixed priority order find, findOne, get,
getByIds, insert, insertAndGet, insertAndFetch, update, updateAndGet,
updateAndFetch, delete, runCustomQuery, runCustomCommand, login,
logout. -/
def pickFirst (req : RequestData) : Option Variant :=
  match req.find with
  | some p => some (.entity .find p)
  | none =>
  match req.findOne with
  | some p => some (.entity .findOne p)
  | none =>
  match req.get with
  | some p => some (.entity .get p)
  | none =>
  match req.getByIds with
  | some p => some (.entity .getByIds p)
  | none =>
  match req.insert with
  | some p => some (.entity .insert p)
  | none =>
  match req.insertAndGet with
  | some p => some (.entity .insertAndGet p)
  | none =>
  match req.insertAndFetch with
  | some p => some (.entity .insertAndFetch p)
  | none =>
  match req.update with
  | some p => some (.entity .update p)
  | none =>
  match req.updateAndGet with
  | some p => some (.entity .updateAndGet p)
  | none =>
  match req.updateAndFetch with
  | some p => some (.entity .updateAndFetch p)
  | none =>
  match req.delete with
  | some p => some (.entity .delete p)
  | none =>
  match req.runCustomQuery with
  | some p => some (.customQuery p)
  | none =>
  match req.runCustomCommand with
  | some p => some (.customCommand p)
  | none =>
  match req.login with
  | some cmd => some (.login cmd)
  | none =>
  match req.logout with
  | some cmd => some (.logout cmd)
  | none => none

/-- Modelled from the spec's dispatch description: handle a single
(chosen) variant, or report `NotFound` when none is populated. -/
def dispatchFirst (c : PhenylCore) (s : Option SessionRec) :
    Option Variant → Except JsErr ResponseData × List Event
  | some (.entity m p) => stepEntity c m p
  | some (.customQuery p) => stepCustomQuery c p s
  | some (.customCommand p) => stepCustomCommand c p s
  | some (.login cmd) => stepLogin c cmd s
  | some (.logout cmd) => stepLogout c cmd s
  | none =>
      (.ok (.error (.ofError { message := "Invalid method name.", resultType := "NotFound" })), [])

/-- Count a populated variant. -/
def cnt (o : Option α) : Nat := if o.isSome then 1 else 0

/-- Number of populated variants of a command envelope. -/
def populatedCount (req : RequestData) : Nat :=
  cnt req.find + cnt req.findOne + cnt req.get + cnt req.getByIds +
  cnt req.insert + cnt req.insertAndGet + cnt req.insertAndFetch +
  cnt req.update + cnt req.updateAndGet + cnt req.updateAndFetch +
  cnt req.delete + cnt req.runCustomQuery + cnt req.runCustomCommand +
  cnt req.login + cnt req.logout

/-- The envelope whose only populated variant is the entity-client
method `m` with payload `p`. -/
def singleEntityReq (m : EMethod) (p : Nat) : RequestData :=
  match m with
  | .find => { find := some p }
  | .findOne => { findOne := some p }
  | .get => { get := some p }
  | .getByIds => { getByIds := some p }
  | .insert => { insert := some p }
  | .insertAndGet => { insertAndGet := some p }
  | .insertAndFetch => { insertAndFetch := some p }
  | .update => { update := some p }
  | .updateAndGet => { updateAndGet := some p }
  | .updateAndFetch => { updateAndFetch := some p }
  | .delete => { delete := some p }

/-! ### The Standard User strategy (`StandardUserDefinition`) -/

/-- Constructor parameters of `StandardUserDefinition`; each optional
field is `none` when absent. The default `encrypt` (the external
`powerCrypt` library function) is supplied separately. -/
structure StandardUserDefinitionParams where
  encrypt : Option (String → String) := none
  accountPropName : Option String := none
  passwordPropName : Option String := none
  ttl : Option Int := none

/-- The constructed strategy object. -/
structure StandardUserDefinition where
  encrypt : String → String
  accountPropName : String
  passwordPropName : String
  ttl : Int

/-- JavaScript `a || d` for an optional string: `none` (absent) and the
empty string are falsy and yield the default. -/
def jsOrString : Option String → String → String
  | none, d => d
  | some s, d => if s = "" then d else s

/-- JavaScript `a || d` for an optional number: `none` (absent) and `0`
are falsy and yield the default. -/
def jsOrInt : Option Int → Int → Int
  | none, d => d
  | some n, d => if n = 0 then d else n

/-- The `StandardUserDefinition` constructor:
`this.encrypt = params.encrypt || powerCrypt`,
`this.accountPropName = params.accountPropName || 'account'`,
`this.passwordPropName = params.passwordPropName || 'password'`,
`this.ttl = params.ttl || 60 * 60 * 24 * 365`. -/
def mkStandardUserDefinition (powerCrypt : String → String)
    (params : StandardUserDefinitionParams) : StandardUserDefinition :=
  { encrypt := params.encrypt.getD powerCrypt
    accountPropName := jsOrString params.accountPropName "account"
    passwordPropName := jsOrString params.passwordPropName "password"
    ttl := jsOrInt params.ttl (60 * 60 * 24 * 365) }

/-- A `findOne` query issued by `authorize`: the entity name and the
where-filter, as the list of (field, required value) pairs in the order
the source object literal writes them. -/
structure FindOneQuery where
  entityName : String
  whereClause : List (String × String)
deriving DecidableEq, Repr

/-- A resolved `findOne`: the matched entity and its version id. -/
structure FindOneOk where
  entity : Entity
  versionId : String
deriving DecidableEq, Repr

/-- The success value of `authorize`: `{preSession, user, versionId}`. -/
structure AuthorizeOk where
  preSession : PreSession
  user : Entity
  versionId : String
deriving DecidableEq, Repr

/-- The `findOne` query `authorize` builds:
`{entityName, where: {[accountPropName]: credentials[accountPropName],
[passwordPropName]: encrypt(credentials[passwordPropName])}}`. -/
def authQuery (d : StandardUserDefinition) (cmd : LoginCommand) : FindOneQuery :=
  { entityName := cmd.entityName
    whereClause := [(d.accountPropName, cmd.credentials d.accountPropName),
                    (d.passwordPropName, d.encrypt (cmd.credentials d.passwordPropName))] }

/-- `StandardUserDefinition.authorize`. Parameters beyond the strategy
object: the entity client's `findOne` (an external collaborator that may
reject — in particular it rejects when no record matches), the runtime's
date-to-ISO-8601 rendering `toISOString` (of a millisecond timestamp),
and the current time `now` in milliseconds (`Date.now()`).
Returns the result (`Except.error` models the `throw
createServerError(e.message, 'Unauthorized')` on any exception) paired
with the query it issued to `findOne`. -/
def authorize (d : StandardUserDefinition)
    (findOne : FindOneQuery → Except JsErr FindOneOk)
    (toISOString : Int → String) (now : Int) (cmd : LoginCommand) :
    Except ErrorResult AuthorizeOk × FindOneQuery :=
  (match findOne (authQuery d cmd) with
   | .error e => .error { message := e, resultType := "Unauthorized" }
   | .ok r =>
      .ok { preSession := { expiredAt := toISOString (now + d.ttl * 1000)
                            entityName := cmd.entityName
                            userId := r.entity.id }
            user := r.entity
            versionId := r.versionId },
   authQuery d cmd)

/-! ### Concrete instances used by witnesses and counterexamples -/

/-- A concrete user entity. -/
def userW : Entity := { id := "u1", fields := [] }

/-- A concrete pre-session. -/
def preW : PreSession :=
  { expiredAt := "2026-01-01T00:00:00.000Z", entityName := "user", userId := "u1" }

/-- A concrete persisted session. -/
def sessW : SessionRec :=
  { id := "s1", expiredAt := "2026-01-01T00:00:00.000Z", entityName := "user", userId := "u1" }

/-- A concrete login command with account "alice" / password "secret". -/
def loginCmdW : LoginCommand :=
  { entityName := "user"
    credentials := fun k =>
      if k = "account" then "alice" else if k = "password" then "secret" else "" }

/-- The same account with a wrong password. -/
def loginCmdBadW : LoginCommand :=
  { entityName := "user"
    credentials := fun k => if k = "account" then "alice" else "wrong" }

/-- A well-behaved concrete `PhenylCore`: every collaborator resolves,
ACL and validation accept, the wrapper is a pass-through. -/
def coreW : PhenylCore :=
  { sessionGet := fun _ => .ok none
    sessionCreate := fun pre =>
      .ok { id := "s1", expiredAt := pre.expiredAt
            entityName := pre.entityName, userId := pre.userId }
    sessionDelete := fun sid => .ok (sid == "s1")
    assertValidRequestData := fun _ => .ok ()
    aclHandler := fun _ _ => .ok true
    validationHandler := fun _ _ => .ok true
    customQueryHandler := fun p _ => .ok { ok := true, payload := p }
    customCommandHandler := fun p _ => .ok { ok := true, payload := p }
    authenticationHandler := fun _ _ => .ok (.ok preW userW "v1")
    executionWrapper := fun rq ss next => next rq ss
    entityFind := fun p => .ok { ok := true, payload := p }
    entityFindOne := fun p => .ok { ok := true, payload := p }
    entityGet := fun p => .ok { ok := true, payload := p }
    entityGetByIds := fun p => .ok { ok := true, payload := p }
    entityInsert := fun p => .ok { ok := true, payload := p }
    entityInsertAndGet := fun p => .ok { ok := true, payload := p }
    entityInsertAndFetch := fun p => .ok { ok := true, payload := p }
    entityUpdate := fun p => .ok { ok := true, payload := p }
    entityUpdateAndGet := fun p => .ok { ok := true, payload := p }
    entityUpdateAndFetch := fun p => .ok { ok := true, payload := p }
    entityDelete := fun p => .ok { ok := true, payload := p } }

/-- `coreW` whose session store's `get` rejects. -/
def coreBadGetW : PhenylCore :=
  { coreW with sessionGet := fun _ => .error "session store down" }

/-- `coreW` whose ACL hook rejects the request. -/
def coreAclFalseW : PhenylCore :=
  { coreW with aclHandler := fun _ _ => .ok false }

/-- `coreW` whose ACL hook throws. -/
def coreAclThrowW : PhenylCore :=
  { coreW with aclHandler := fun _ _ => .error "acl boom" }

/-- `coreW` whose validation hook rejects the request. -/
def coreValFalseW : PhenylCore :=
  { coreW with validationHandler := fun _ _ => .ok false }

/-- An envelope whose only populated variant is `find`. -/
def reqFindW : RequestData := { find := some 1 }

/-- An envelope with two populated variants (`find` and `findOne`). -/
def reqTwoW : RequestData := { find := some 1, findOne := some 2 }

/-- An envelope with no populated variant. -/
def reqEmptyW : RequestData := {}

/-- A concrete deterministic one-way transform stand-in. -/
def encW : String → String := fun s => s ++ "#enc"

/-- The strategy built with all-default parameters and `encW`. -/
def sudW : StandardUserDefinition := mkStandardUserDefinition encW {}

/-- A backing store holding exactly one record: account "alice" with the
correctly-encrypted password; `findOne` rejects on any other filter. -/
def findOneW : FindOneQuery → Except JsErr FindOneOk := fun q =>
  if q = authQuery sudW loginCmdW then .ok { entity := userW, versionId := "v1" }
  else .error "findOne: no matching entity"

/-- A concrete ISO-8601 rendering stand-in (constant; the claims only
require that `authorize` applies the runtime's rendering to
`now + ttl * 1000`). -/
def isoW : Int → String := fun _ => "2026-01-01T00:00:00.000Z"

/-- Constructor parameters whose configured values are all falsy. -/
def paramsFalsyW : StandardUserDefinitionParams :=
  { accountPropName := some "", passwordPropName := some "", ttl := some 0 }

/-! ### Theorems -/

/-- The dispatcher is first-match: `execute` coincides with handling the
first populated variant in the source's checking order. -/
theorem execute_eq_dispatchFirst (c : PhenylCore) (req : RequestData)
    (s : Option SessionRec) :
    execute c req s = dispatchFirst c s (pickFirst req) := by
  obtain ⟨f1, f2, f3, f4, f5, f6, f7, f8, f9, f10, f11, f12, f13, f14, f15⟩ := req
  cases f1 with
  | some p => rfl
  | none =>
  cases f2 with
  | some p => rfl
  | none =>
  cases f3 with
  | some p => rfl
  | none =>
  cases f4 with
  | some p => rfl
  | none =>
  cases f5 with
  | some p => rfl
  | none =>
  cases f6 with
  | some p => rfl
  | none =>
  cases f7 with
  | some p => rfl
  | none =>
  cases f8 with
  | some p => rfl
  | none =>
  cases f9 with
  | some p => rfl
  | none =>
  cases f10 with
  | some p => rfl
  | none =>
  cases f11 with
  | some p => rfl
  | none =>
  cases f12 with
  | some p => rfl
  | none =>
  cases f13 with
  | some p => rfl
  | none =>
  cases f14 with
  | some p => rfl
  | none =>
  cases f15 with
  | some p => rfl
  | none => rfl

/-- An envelope with no populated variant is all-`none`. -/
theorem populatedCount_zero_all_none (req : RequestData)
    (h : populatedCount req = 0) : pickFirst req = none := by
  obtain ⟨f1, f2, f3, f4, f5, f6, f7, f8, f9, f10, f11, f12, f13, f14, f15⟩ := req
  simp only [populatedCount, cnt] at h
  cases f1 <;> cases f2 <;> cases f3 <;> cases f4 <;> cases f5 <;> simp_all
  cases f6 <;> cases f7 <;> cases f8 <;> cases f9 <;> cases f10 <;> simp_all
  cases f11 <;> cases f12 <;> cases f13 <;> cases f14 <;> cases f15 <;> simp_all
  rfl

/-- Claim C1 (counterexample): with a session store whose `get` rejects,
`run` does not resolve to a result envelope — the exception escapes
`run`'s boundary, because `sessionClient.get` is awaited before the
`try` block. -/
theorem run_session_get_rejection_escapes :
    run coreBadGetW reqFindW (some "s1") =
      (Except.error "session store down", [Event.sessionGet]) := rfl

/-- Claim C1 (amended): when the session store's `get` resolves and the
execution-wrapping stage (whose promise `run` returns from inside the
`try` without awaiting it) does not reject, `run` always resolves to a
result envelope: every exception thrown by the shape validation, the ACL
hook or the validation hook is caught inside `run` and converted to an
error result. -/
theorem run_inner_exceptions_converted (c : PhenylCore) (req : RequestData)
    (sid : Option String) (s : Option SessionRec)
    (hget : c.sessionGet sid = .ok s)
    (hw : exceptIsOk (c.executionWrapper req s (fun rq ss => execute c rq ss)).1 = true) :
    exceptIsOk (run c req sid).1 = true := by
  unfold run
  rw [hget]
  cases hv : c.assertValidRequestData req with
  | error e => simp [exceptIsOk]
  | ok u =>
    cases hacl : c.aclHandler req s with
    | error e => simp [hacl, exceptIsOk]
    | ok b =>
      cases b with
      | false => simp [hacl, exceptIsOk]
      | true =>
        cases hval : c.validationHandler req s with
        | error e => simp [hacl, hval, exceptIsOk]
        | ok b2 =>
          cases b2 with
          | false => simp [hacl, hval, exceptIsOk]
          | true => simp only [hacl, hval]; simpa using hw

/-- Claim C1 (witness): a core whose ACL hook throws still resolves. -/
theorem run_inner_exceptions_converted_witness :
    coreAclThrowW.sessionGet none = .ok none ∧
    exceptIsOk (coreAclThrowW.executionWrapper reqFindW none
      (fun rq ss => execute coreAclThrowW rq ss)).1 = true ∧
    exceptIsOk (run coreAclThrowW reqFindW none).1 = true :=
  ⟨rfl, rfl, run_inner_exceptions_converted coreAclThrowW reqFindW none none rfl rfl⟩

/-- Claim C2: when the session resolves, the shape assertion passes and
the ACL hook returns false, `run` returns
`{error: Unauthorized("Authorization Required.")}` and its trace is
exactly session-get, shape-assertion, ACL — the validation hook, the
execution-wrapping hook and the backend methods are never invoked. -/
theorem run_acl_false_short_circuits (c : PhenylCore) (req : RequestData)
    (sid : Option String) (s : Option SessionRec)
    (hget : c.sessionGet sid = .ok s)
    (hshape : c.assertValidRequestData req = .ok ())
    (hacl : c.aclHandler req s = .ok false) :
    run c req sid =
      (.ok (.error (.ofError
          { message := "Authorization Required.", resultType := "Unauthorized" })),
       [Event.sessionGet, Event.assertShape, Event.acl]) := by
  unfold run
  simp [hget, hshape, hacl]

/-- Claim C2 (witness): a concrete core whose ACL hook returns false. -/
theorem run_acl_false_short_circuits_witness :
    coreAclFalseW.sessionGet none = .ok none ∧
    coreAclFalseW.assertValidRequestData reqFindW = .ok () ∧
    coreAclFalseW.aclHandler reqFindW none = .ok false ∧
    run coreAclFalseW reqFindW none =
      (.ok (.error (.ofError
          { message := "Authorization Required.", resultType := "Unauthorized" })),
       [Event.sessionGet, Event.assertShape, Event.acl]) :=
  ⟨rfl, rfl, rfl,
   run_acl_false_short_circuits coreAclFalseW reqFindW none none rfl rfl rfl⟩

/-- Claim C7: when the session resolves, the shape assertion passes, the
ACL hook returns true and the validation hook returns false, `run`
returns `{error: BadRequest("Params are not valid.")}` and its trace is
exactly session-get, shape-assertion, ACL, validation — the
execution-wrapping hook and the backend methods are never invoked. -/
theorem run_validation_false_short_circuits (c : PhenylCore) (req : RequestData)
    (sid : Option String) (s : Option SessionRec)
    (hget : c.sessionGet sid = .ok s)
    (hshape : c.assertValidRequestData req = .ok ())
    (hacl : c.aclHandler req s = .ok true)
    (hval : c.validationHandler req s = .ok false) :
    run c req sid =
      (.ok (.error (.ofError
          { message := "Params are not valid.", resultType := "BadRequest" })),
       [Event.sessionGet, Event.assertShape, Event.acl, Event.validation]) := by
  unfold run
  simp [hget, hshape, hacl, hval]

/-- Claim C7 (witness): a concrete core whose validation hook returns
false. -/
theorem run_validation_false_short_circuits_witness :
    coreValFalseW.sessionGet none = .ok none ∧
    coreValFalseW.assertValidRequestData reqFindW = .ok () ∧
    coreValFalseW.aclHandler reqFindW none = .ok true ∧
    coreValFalseW.validationHandler reqFindW none = .ok false ∧
    run coreValFalseW reqFindW none =
      (.ok (.error (.ofError
          { message := "Params are not valid.", resultType := "BadRequest" })),
       [Event.sessionGet, Event.assertShape, Event.acl, Event.validation]) :=
  ⟨rfl, rfl, rfl, rfl,
   run_validation_false_short_circuits coreValFalseW reqFindW none none rfl rfl rfl rfl⟩

/-- An envelope whose only populated variant is entity method `m`
dispatches exactly the corresponding branch. -/
theorem execute_singleEntityReq (c : PhenylCore) (m : EMethod) (p : Nat)
    (s : Option SessionRec) :
    execute c (singleEntityReq m p) s = stepEntity c m p := by
  cases m <;> rfl

/-- Claim C5 (amended: eleven, not twelve, data-operation names): for
every envelope whose only populated variant is one of the eleven
entity-client operations, `execute` performs exactly one call, to the
same-named Operation Backend method; an `ok`-true result is wrapped
under the same-named top-level key, an `ok`-false result is returned as
`{error: <that failure>}`. -/
theorem execute_single_entity_dispatch (c : PhenylCore) (m : EMethod) (p : Nat)
    (s : Option SessionRec) :
    (execute c (singleEntityReq m p) s).2 = [Event.entity m] ∧
    (∀ r, entityCall c m p = .ok r → r.ok = true →
        (execute c (singleEntityReq m p) s).1 = .ok (wrapKey m r)) ∧
    (∀ r, entityCall c m p = .ok r → r.ok = false →
        (execute c (singleEntityReq m p) s).1 = .ok (.error (.ofResult r))) := by
  simp only [execute_singleEntityReq]
  refine ⟨?_, fun r h hok => ?_, fun r h hok => ?_⟩
  · cases h : entityCall c m p <;> simp [stepEntity, h]
  · simp [stepEntity, h, hok]
  · simp [stepEntity, h, hok]

/-- Claim C5 (witness): a `find`-only envelope against a concrete core. -/
theorem execute_single_entity_dispatch_witness :
    entityCall coreW EMethod.find 5 = .ok { ok := true, payload := 5 } ∧
    (execute coreW (singleEntityReq EMethod.find 5) none).1 =
      .ok (wrapKey EMethod.find { ok := true, payload := 5 }) :=
  ⟨rfl,
   (execute_single_entity_dispatch coreW EMethod.find 5 none).2.1
     { ok := true, payload := 5 } rfl rfl⟩

/-- Claim C5 (counterexample to "twelve"): `runCustomQuery`, the only
candidate twelfth data-operation variant, dispatches to the
custom-query handler — the trace holds no `Event.entity` call, so no
same-named Operation Backend method is invoked for it. -/
theorem execute_runCustomQuery_not_backend :
    execute coreW { runCustomQuery := some 7 } none =
      (.ok (.runCustomQuery { ok := true, payload := 7 }), [Event.customQuery]) := rfl

/-- Claim C6: for every envelope with two or more populated variants the
dispatcher handles exactly the first populated variant in the fixed
priority order find, findOne, get, getByIds, insert, insertAndGet,
insertAndFetch, update, updateAndGet, updateAndFetch, delete,
runCustomQuery, runCustomCommand, login, logout (`pickFirst`); and for
an envelope with zero populated variants it returns
`{error: NotFound("Invalid method name.")}`. -/
theorem execute_first_match_dispatch (c : PhenylCore) (req : RequestData)
    (s : Option SessionRec) :
    (2 ≤ populatedCount req →
        execute c req s = dispatchFirst c s (pickFirst req)) ∧
    (populatedCount req = 0 →
        execute c req s =
          (.ok (.error (.ofError
              { message := "Invalid method name.", resultType := "NotFound" })), [])) := by
  refine ⟨fun _ => execute_eq_dispatchFirst c req s, fun h => ?_⟩
  rw [execute_eq_dispatchFirst, populatedCount_zero_all_none req h]
  rfl

/-- Claim C6 (witness): an envelope populating both `find` and `findOne`
is handled as its first variant, and the empty envelope yields
`NotFound`. -/
theorem execute_first_match_dispatch_witness :
    (2 ≤ populatedCount reqTwoW ∧
      execute coreW reqTwoW none = dispatchFirst coreW none (pickFirst reqTwoW)) ∧
    (populatedCount reqEmptyW = 0 ∧
      execute coreW reqEmptyW none =
        (.ok (.error (.ofError
            { message := "Invalid method name.", resultType := "NotFound" })), [])) :=
  ⟨⟨by decide, (execute_first_match_dispatch coreW reqTwoW none).1 (by decide)⟩,
   ⟨by decide, (execute_first_match_dispatch coreW reqEmptyW none).2 (by decide)⟩⟩

/-- Claim C3: `authorize` queries the backend's `findOne` with a filter
equating the configured account field to the given account value and the
configured password field to the encrypted password value (never the
plaintext), and on a matching record returns the pre-session
`{expiredAt: toISOString(now + ttl * 1000), entityName,
userId: <matched record's id>}` together with the matched user and
version id. -/
theorem authorize_encrypted_filter_and_success (d : StandardUserDefinition)
    (findOne : FindOneQuery → Except JsErr FindOneOk)
    (iso : Int → String) (now : Int) (cmd : LoginCommand) :
    (authorize d findOne iso now cmd).2 =
      { entityName := cmd.entityName
        whereClause := [(d.accountPropName, cmd.credentials d.accountPropName),
                        (d.passwordPropName, d.encrypt (cmd.credentials d.passwordPropName))] } ∧
    ∀ r, findOne (authQuery d cmd) = .ok r →
      (authorize d findOne iso now cmd).1 =
        .ok { preSession := { expiredAt := iso (now + d.ttl * 1000)
                              entityName := cmd.entityName
                              userId := r.entity.id }
              user := r.entity
              versionId := r.versionId } := by
  refine ⟨rfl, fun r h => ?_⟩
  simp [authorize, h]

/-- Claim C3 (witness): the correct credentials against the one-record
store succeed, with the pre-session built from the matched record. -/
theorem authorize_encrypted_filter_and_success_witness :
    findOneW (authQuery sudW loginCmdW) = .ok { entity := userW, versionId := "v1" } ∧
    (authorize sudW findOneW isoW 0 loginCmdW).1 =
      .ok { preSession := { expiredAt := "2026-01-01T00:00:00.000Z"
                            entityName := "user"
                            userId := "u1" }
            user := userW
            versionId := "v1" } :=
  ⟨rfl,
   (authorize_encrypted_filter_and_success sudW findOneW isoW 0 loginCmdW).2
     { entity := userW, versionId := "v1" } rfl⟩

/-- Claim C4: when the backing-store lookup rejects (which covers both
backend failures and "no matching record", since the entity client's
`findOne` rejects on no match), `authorize` fails with an `Unauthorized`
error carrying the backend's error message; all rejections are mapped
uniformly, so credential mismatches and backend failures are not
distinguishable in the result. -/
theorem authorize_failure_is_unauthorized (d : StandardUserDefinition)
    (findOne : FindOneQuery → Except JsErr FindOneOk)
    (iso : Int → String) (now : Int) (cmd : LoginCommand) (e : JsErr)
    (h : findOne (authQuery d cmd) = .error e) :
    (authorize d findOne iso now cmd).1 =
      .error { message := e, resultType := "Unauthorized" } := by
  simp [authorize, h]

/-- Claim C4 (witness): a wrong password against a store holding only
the correctly-encrypted value yields `Unauthorized` with the backend's
message. -/
theorem authorize_failure_is_unauthorized_witness :
    findOneW (authQuery sudW loginCmdBadW) = .error "findOne: no matching entity" ∧
    (authorize sudW findOneW isoW 0 loginCmdBadW).1 =
      .error { message := "findOne: no matching entity", resultType := "Unauthorized" } :=
  ⟨rfl,
   authorize_failure_is_unauthorized sudW findOneW isoW 0 loginCmdBadW
     "findOne: no matching entity" rfl⟩

/-- Claim C8: when the authentication hook resolves to a success,
`login` passes the hook's pre-session to the session store's `create`
and returns `{ok: 1, user, session}` with the record `create` returned;
when the hook resolves to a failure, `login` returns an error result
preserving the hook's error kind. -/
theorem login_creates_session_or_preserves_error_kind (c : PhenylCore)
    (cmd : LoginCommand) (s : Option SessionRec) :
    (∀ pre u v ns, c.authenticationHandler cmd s = .ok (.ok pre u v) →
        c.sessionCreate pre = .ok ns →
        login c cmd s = (.ok u ns, [Event.auth, Event.sessionCreate])) ∧
    (∀ msg kind, c.authenticationHandler cmd s = .ok (.err msg kind) →
        login c cmd s =
          (.err { message := msg, resultType := kind }, [Event.auth])) := by
  constructor
  · intro pre u v ns h1 h2
    simp [login, h1, h2]
  · intro msg kind h1
    simp [login, h1]

/-- Claim C8 (witness): a concrete successful authentication. -/
theorem login_creates_session_or_preserves_error_kind_witness :
    coreW.authenticationHandler loginCmdW none = .ok (.ok preW userW "v1") ∧
    coreW.sessionCreate preW = .ok sessW ∧
    login coreW loginCmdW none = (.ok userW sessW, [Event.auth, Event.sessionCreate]) :=
  ⟨rfl, rfl,
   (login_creates_session_or_preserves_error_kind coreW loginCmdW none).1
     preW userW "v1" sessW rfl rfl⟩

/-- Claim C9: `logout` calls the session store's `delete` with the
command's `sessionId`; a truthy delete result yields `{ok: 1}`, a falsy
one yields `{error: BadRequest("sessionId not found")}`, and a rejection
is converted to a generic error result. -/
theorem logout_deletes_session_by_id (c : PhenylCore) (cmd : LogoutCommand)
    (s : Option SessionRec) :
    (c.sessionDelete cmd.sessionId = .ok true →
        logout c cmd s = (.ok, [Event.sessionDelete])) ∧
    (c.sessionDelete cmd.sessionId = .ok false →
        logout c cmd s =
          (.err { message := "sessionId not found", resultType := "BadRequest" },
           [Event.sessionDelete])) ∧
    (∀ e, c.sessionDelete cmd.sessionId = .error e →
        logout c cmd s = (.err (createErrorResult e), [Event.sessionDelete])) := by
  refine ⟨fun h => ?_, fun h => ?_, fun e h => ?_⟩ <;> simp [logout, h]

/-- Claim C9 (witness): deleting the known id succeeds, an unknown id
reports `BadRequest "sessionId not found"`. -/
theorem logout_deletes_session_by_id_witness :
    (coreW.sessionDelete "s1" = .ok true ∧
      logout coreW { sessionId := "s1" } none = (.ok, [Event.sessionDelete])) ∧
    (coreW.sessionDelete "zz" = .ok false ∧
      logout coreW { sessionId := "zz" } none =
        (.err { message := "sessionId not found", resultType := "BadRequest" },
         [Event.sessionDelete])) :=
  ⟨⟨rfl, (logout_deletes_session_by_id coreW { sessionId := "s1" } none).1 rfl⟩,
   ⟨rfl, (logout_deletes_session_by_id coreW { sessionId := "zz" } none).2.1 rfl⟩⟩

/-- Claim C10: the `StandardUserDefinition` constructor substitutes the
default for every falsy configured value: `ttl: 0` yields
`31536000` (one year of seconds), and empty-string `accountPropName` /
`passwordPropName` yield `"account"` / `"password"`. -/
theorem constructor_falsy_defaults (pc : String → String)
    (params : StandardUserDefinitionParams) :
    (params.ttl = some 0 →
        (mkStandardUserDefinition pc params).ttl = 31536000) ∧
    (params.accountPropName = some "" →
        (mkStandardUserDefinition pc params).accountPropName = "account") ∧
    (params.passwordPropName = some "" →
        (mkStandardUserDefinition pc params).passwordPropName = "password") := by
  refine ⟨fun h => ?_, fun h => ?_, fun h => ?_⟩ <;>
    simp [mkStandardUserDefinition, jsOrInt, jsOrString, h]

/-- Claim C10 (witness): the all-falsy parameter record. -/
theorem constructor_falsy_defaults_witness :
    paramsFalsyW.ttl = some 0 ∧
    paramsFalsyW.accountPropName = some "" ∧
    paramsFalsyW.passwordPropName = some "" ∧
    (mkStandardUserDefinition encW paramsFalsyW).ttl = 31536000 ∧
    (mkStandardUserDefinition encW paramsFalsyW).accountPropName = "account" ∧
    (mkStandardUserDefinition encW paramsFalsyW).passwordPropName = "password" :=
  ⟨rfl, rfl, rfl,
   (constructor_falsy_defaults encW paramsFalsyW).1 rfl,
   (constructor_falsy_defaults encW paramsFalsyW).2.1 rfl,
   (constructor_falsy_defaults encW paramsFalsyW).2.2 rfl⟩

end Phenyl
